import Mathlib

/-!
Shallow embedding of `src/error.rs` of `gql-client-rs`: the error model of a
GraphQL client (type `GraphQLError` with its satellite shapes), its
constructors, predicates and the shared Display/Debug formatting routine,
together with theorems settling the specification claims about them.
-/

/-- Model of `serde_json::Value`: a JSON value as stored in the
`extensions` map of a GraphQL error entry.  Numbers are modelled as
integers (a fractional JSON number is outside every behaviour the module
distinguishes: any non-string value is treated alike). -/
inductive JsonValue where
  | null : JsonValue
  | bool : Bool → JsonValue
  | num : Int → JsonValue
  | str : String → JsonValue
  | arr : List JsonValue → JsonValue
  | obj : List (String × JsonValue) → JsonValue

/-- Model of `serde_json::Value::as_str`: `some s` exactly when the value
is a JSON string. -/
def JsonValue.asStr : JsonValue → Option String
  | JsonValue.str s => some s
  | _ => none

/-- Rust struct `GraphQLErrorLocation` with `line` and `column` of type `u32`. -/
structure GraphQLErrorLocation where
  line : Nat
  column : Nat

/-- Rust enum `GraphQLErrorPathParam` with variants `String(String)` and `Number(u32)`. -/
inductive GraphQLErrorPathParam where
  | String : String → GraphQLErrorPathParam
  | Number : Nat → GraphQLErrorPathParam

/-- Rust struct `GraphQLErrorMessage`: one decoded GraphQL spec error object.
The `extensions` field models `serde_json::Map<String, Value>` as an
association list keyed by strings. -/
structure GraphQLErrorMessage where
  message : String
  locations : Option (List GraphQLErrorLocation)
  extensions : Option (List (String × JsonValue))
  path : Option (List GraphQLErrorPathParam)

/-- Rust struct `GraphQLError`: a summary `message` and an optional list `json` of structured entries. -/
structure GraphQLError where
  message : String
  json : Option (List GraphQLErrorMessage)

/-- The per-entry closure body of `GraphQLError::contains_error_code`:
`err.extensions.as_ref().is_some_and(|ext| ext.get("code").is_some_and(|val| val.as_str().unwrap_or_default() == code))`. -/
def GraphQLErrorMessage.codeMatches (err : GraphQLErrorMessage) (code : String) : Bool :=
  match err.extensions with
  | none => false
  | some ext =>
    match List.lookup "code" ext with
    | none => false
    | some val => val.asStr.getD "" == code

/-- Rust method `GraphQLError::contains_error_message`. -/
def GraphQLError.contains_error_message (e : GraphQLError) (message : String) : Bool :=
  match e.json with
  | none => false
  | some errors => errors.any (fun err => err.message == message)

/-- Rust method `GraphQLError::contains_error_code`. -/
def GraphQLError.contains_error_code (e : GraphQLError) (code : String) : Bool :=
  match e.json with
  | none => false
  | some errors => errors.any (fun err => err.codeMatches code)

/-- Rust constructor `GraphQLError::with_text`. -/
def GraphQLError.with_text (message : String) : GraphQLError :=
  { message := message, json := none }

/-- Rust constructor `GraphQLError::with_message_and_json`. -/
def GraphQLError.with_message_and_json (message : String)
    (json : List GraphQLErrorMessage) : GraphQLError :=
  { message := message, json := some json }

/-- Rust constructor `GraphQLError::with_json`: supplies the fixed default summary message. -/
def GraphQLError.with_json (json : List GraphQLErrorMessage) : GraphQLError :=
  GraphQLError.with_message_and_json "Look at json field for more details" json

/-- The external transport failure type (`reqwest::Error`), abstracted —
as the spec does — by its rendered string description (`error.to_string()`). -/
structure ReqwestError where
  rendered : String

/-- Rust conversion `impl From<reqwest::Error> for GraphQLError`. -/
def GraphQLError.fromError (e : ReqwestError) : GraphQLError :=
  { message := e.rendered, json := none }

/-- Model of `writeln!`: append the text and a trailing newline to the
formatter buffer. -/
def writelnStr (buf s : String) : String := buf ++ s ++ "\n"

/-- The free function `format(err, f)`: the single shared formatting
routine.  The formatter is modelled as an output buffer; the `unwrap`
of `err.json` after the `is_none` early return is modelled as the error
case of an `Except`, so that its unreachability is a provable fact. -/
def format (err : GraphQLError) (buf : String) : Except String String :=
  let buf := writelnStr buf ("\nGQLClient Error: " ++ err.message)
  if err.json.isNone then
    Except.ok buf
  else
    match err.json with
    | none => Except.error "called Option::unwrap() on a None value"
    | some errors =>
      Except.ok (errors.foldl (fun b e => writelnStr b ("Message: " ++ e.message)) buf)

/-- Rust `impl fmt::Display for GraphQLError`: delegates to `format` on an
empty buffer. -/
def displayOutput (e : GraphQLError) : Except String String := format e ""

/-- Rust `impl fmt::Debug for GraphQLError`: delegates to the same `format`. -/
def debugOutput (e : GraphQLError) : Except String String := format e ""

/-- Modelled from the spec: the derived untagged deserialization of one
`GraphQLErrorPathParam` (the serde `Deserialize` machinery is not in the
source tree): a path segment decodes as a field name when the underlying
JSON value is textual, else as an unsigned 32-bit list index. -/
def decodePathParam : JsonValue → Option GraphQLErrorPathParam
  | JsonValue.str s => some (GraphQLErrorPathParam.String s)
  | JsonValue.num n =>
      if 0 ≤ n ∧ n < 2 ^ 32 then some (GraphQLErrorPathParam.Number n.toNat)
      else none
  | _ => none

/-- Modelled from the spec: decoding of a whole wire path list, segment by
segment. -/
def decodePath (vals : List JsonValue) : Option (List GraphQLErrorPathParam) :=
  vals.mapM decodePathParam

/-- Concrete GraphQL error entry whose `code` extension value is a JSON
number (not a string). -/
def exEntryNum : GraphQLErrorMessage :=
  { message := "boom", locations := none,
    extensions := some [("code", JsonValue.num 5)], path := none }

/-- Concrete error value built from the single non-string-code entry. -/
def exNum : GraphQLError := GraphQLError.with_json [exEntryNum]

/-- Concrete GraphQL error entry whose `code` extension value is the JSON
string `"BAD_INPUT"`. -/
def exEntryStr : GraphQLErrorMessage :=
  { message := "bad input", locations := none,
    extensions := some [("code", JsonValue.str "BAD_INPUT")], path := none }

/-- Concrete error value built from the single string-code entry. -/
def exStr : GraphQLError := GraphQLError.with_json [exEntryStr]

/-- Per-entry characterisation of the `code` check: it succeeds exactly on
a string-valued `code` equal to the target, or on any non-string `code`
value when the target is the empty string (the `unwrap_or_default`
coercion). -/
theorem codeMatches_iff (err : GraphQLErrorMessage) (c : String) :
    err.codeMatches c = true ↔
      ∃ ext, err.extensions = some ext ∧ ∃ v, List.lookup "code" ext = some v ∧
        (v.asStr = some c ∨ (v.asStr = none ∧ c = "")) := by
  cases hext : err.extensions with
  | none => simp [GraphQLErrorMessage.codeMatches, hext]
  | some ext =>
    cases hv : List.lookup "code" ext with
    | none => simp [GraphQLErrorMessage.codeMatches, hext, hv]
    | some v =>
      cases hs : v.asStr with
      | none =>
        simp [GraphQLErrorMessage.codeMatches, hext, hv, hs]
        exact eq_comm
      | some s => simp [GraphQLErrorMessage.codeMatches, hext, hv, hs]

/-- Top-level characterisation of `contains_error_code` in terms of the
per-entry check. -/
theorem contains_error_code_iff (e : GraphQLError) (c : String) :
    e.contains_error_code c = true ↔
      ∃ errors, e.json = some errors ∧ ∃ err ∈ errors, err.codeMatches c = true := by
  cases hj : e.json with
  | none => simp [GraphQLError.contains_error_code, hj]
  | some errors => simp [GraphQLError.contains_error_code, hj, List.any_eq_true]

/-- C1 (amended): `contains_error_code c` is true iff some entry has an
extensions map whose `code` key holds a JSON string equal to `c`, or —
the coercion the original claim misses — holds any non-string value while
`c` is the empty string. -/
theorem spec_C1 (e : GraphQLError) (c : String) :
    e.contains_error_code c = true ↔
      ∃ errors, e.json = some errors ∧ ∃ err ∈ errors,
        ∃ ext, err.extensions = some ext ∧ ∃ v, List.lookup "code" ext = some v ∧
          (v.asStr = some c ∨ (v.asStr = none ∧ c = "")) := by
  simp only [contains_error_code_iff, codeMatches_iff]

/-- C1 counterexample: on the error value whose single entry carries a
numeric (non-string) `code`, `contains_error_code ""` is true, although no
entry holds a string-valued `code` at all — contradicting the claim that a
non-string `code` value never matches any target. -/
theorem spec_C1_counterexample :
    exNum.contains_error_code "" = true ∧
    exNum.json = some [exEntryNum] ∧
    exEntryNum.extensions = some [("code", JsonValue.num 5)] ∧
    (JsonValue.num 5).asStr = none ∧
    ¬ ∃ err, err ∈ [exEntryNum] ∧ ∃ ext, err.extensions = some ext ∧
        ∃ s, List.lookup "code" ext = some (JsonValue.str s) := by
  refine ⟨rfl, rfl, rfl, rfl, ?_⟩
  rintro ⟨err, hmem, ext, hext, s, hs⟩
  simp only [List.mem_singleton] at hmem
  subst hmem
  simp only [exEntryNum, Option.some.injEq] at hext
  subst hext
  have h2 : (some (JsonValue.num 5) : Option JsonValue) = some (JsonValue.str s) :=
    (rfl : List.lookup "code" [("code", JsonValue.num 5)] = some (JsonValue.num 5)).symm.trans hs
  simp at h2

/-- C1 witness: the amended characterisation applied to a concrete
string-coded error value. -/
theorem spec_C1_witness : exStr.contains_error_code "BAD_INPUT" = true :=
  (spec_C1 exStr "BAD_INPUT").mpr
    ⟨[exEntryStr], rfl, exEntryStr, List.Mem.head _,
      [("code", JsonValue.str "BAD_INPUT")], rfl, JsonValue.str "BAD_INPUT", rfl, Or.inl rfl⟩

/-- C2: whenever some entry of a structured error has a `code` extension
value that is not a JSON string, `contains_error_code ""` returns true:
the non-string value is coerced to the default empty string before the
comparison. -/
theorem spec_C2 (e : GraphQLError) (errors : List GraphQLErrorMessage)
    (err : GraphQLErrorMessage) (ext : List (String × JsonValue)) (v : JsonValue)
    (hj : e.json = some errors) (hmem : err ∈ errors)
    (hext : err.extensions = some ext)
    (hv : List.lookup "code" ext = some v) (hns : v.asStr = none) :
    e.contains_error_code "" = true := by
  have hc : err.codeMatches "" = true := by
    simp [GraphQLErrorMessage.codeMatches, hext, hv, hns]
  simp only [GraphQLError.contains_error_code, hj, List.any_eq_true]
  exact ⟨err, hmem, hc⟩

/-- C2 witness: the numeric-code entry makes `contains_error_code ""` true. -/
theorem spec_C2_witness : exNum.contains_error_code "" = true :=
  spec_C2 exNum [exEntryNum] exEntryNum [("code", JsonValue.num 5)] (JsonValue.num 5)
    rfl (List.Mem.head _) rfl rfl rfl

/-- C3: `contains_error_message m` is true iff the structured error list is
present and some entry has `message` exactly equal to `m`. -/
theorem spec_C3 (e : GraphQLError) (m : String) :
    e.contains_error_message m = true ↔
      ∃ errors, e.json = some errors ∧ ∃ err ∈ errors, err.message = m := by
  cases hj : e.json with
  | none => simp [GraphQLError.contains_error_message, hj]
  | some errors => simp [GraphQLError.contains_error_message, hj, List.any_eq_true]

/-- C3 witness: the characterisation applied at a concrete entry. -/
theorem spec_C3_witness : exStr.contains_error_message "bad input" = true :=
  (spec_C3 exStr "bad input").mpr ⟨[exEntryStr], rfl, exEntryStr, List.Mem.head _, rfl⟩

/-- C4: transport-origin error values (from `with_text` or from the
conversion of the external transport failure) carry no structured errors,
and both predicates reject every input string. -/
theorem spec_C4 (msg : String) (re : ReqwestError) (m c : String) :
    (GraphQLError.with_text msg).json = none ∧
    (GraphQLError.with_text msg).contains_error_message m = false ∧
    (GraphQLError.with_text msg).contains_error_code c = false ∧
    (GraphQLError.fromError re).json = none ∧
    (GraphQLError.fromError re).contains_error_message m = false ∧
    (GraphQLError.fromError re).contains_error_code c = false :=
  ⟨rfl, rfl, rfl, rfl, rfl, rfl⟩

/-- Accumulated writes of the entry loop: folding `writeln` from the left
equals the buffer followed by one `Message:` line per entry, in order. -/
theorem foldl_writelnStr (errors : List GraphQLErrorMessage) (buf : String) :
    errors.foldl (fun b e => writelnStr b ("Message: " ++ e.message)) buf
      = buf ++ errors.foldr (fun e acc => "Message: " ++ e.message ++ "\n" ++ acc) "" := by
  induction errors generalizing buf with
  | nil => simp [String.append_empty]
  | cons e es ih =>
    rw [List.foldl_cons, ih]
    simp [writelnStr, String.append_assoc]

/-- Evaluation of `format`: the header line followed by the entry lines. -/
theorem format_eq (e : GraphQLError) (buf : String) :
    format e buf = Except.ok
      (writelnStr buf ("\nGQLClient Error: " ++ e.message) ++
        (match e.json with
         | none => ""
         | some errors =>
             errors.foldr (fun en acc => "Message: " ++ en.message ++ "\n" ++ acc) "")) := by
  cases hj : e.json with
  | none => simp [format, hj, String.append_empty]
  | some errors =>
    simp only [format, hj, Option.isNone_some, Bool.false_eq_true, if_false,
      Except.ok.injEq]
    exact foldl_writelnStr errors _

/-- C5: the display rendering is a leading blank line, the line
`GQLClient Error:` followed by the summary message, and — only when
structured errors are present — one `Message:` line per entry in original
order, rendering no other entry fields. -/
theorem spec_C5 (e : GraphQLError) :
    displayOutput e = Except.ok
      ("\nGQLClient Error: " ++ e.message ++ "\n" ++
        (match e.json with
         | none => ""
         | some errors =>
             errors.foldr (fun en acc => "Message: " ++ en.message ++ "\n" ++ acc) "")) := by
  simp only [displayOutput, format_eq, writelnStr, String.empty_append]

/-- C6: the human-readable and the debug textual representations agree on
every error value, both being the shared `format` routine on an empty
buffer. -/
theorem spec_C6 (e : GraphQLError) : displayOutput e = debugOutput e := rfl

/-- C7: `with_json` yields the same `json` (structured errors) as
`with_message_and_json` with any summary message, the default one
included — the two constructors differ only in the `message` value. -/
theorem spec_C7 (E : List GraphQLErrorMessage) (msg : String) :
    (GraphQLError.with_json E).json = (GraphQLError.with_message_and_json msg E).json :=
  rfl

/-- C8: the formatting routine is total — the `unwrap` of the entry list,
modelled as the `Except.error` branch, is unreachable, being guarded by
the preceding `is_none` early return; the predicates and accessors are
total by construction. -/
theorem spec_C8 (e : GraphQLError) (buf : String) :
    ∃ s, format e buf = Except.ok s := by
  cases hj : e.json with
  | none => exact ⟨writelnStr buf ("\nGQLClient Error: " ++ e.message), by simp [format, hj]⟩
  | some errors =>
    exact ⟨(errors.foldl (fun b en => writelnStr b ("Message: " ++ en.message))
      (writelnStr buf ("\nGQLClient Error: " ++ e.message))), by simp [format, hj]⟩

/-- C9: a path segment decodes by the underlying JSON type — textual to the
field-name variant, unsigned integer to the list-index variant — and the
wire path of the claim decodes accordingly. -/
theorem spec_C9 :
    (∀ s : String, decodePathParam (JsonValue.str s) = some (GraphQLErrorPathParam.String s)) ∧
    (∀ n : Int, 0 ≤ n → n < 2 ^ 32 →
      decodePathParam (JsonValue.num n) = some (GraphQLErrorPathParam.Number n.toNat)) ∧
    decodePath [JsonValue.str "user", JsonValue.num 0, JsonValue.str "name"] =
      some [GraphQLErrorPathParam.String "user", GraphQLErrorPathParam.Number 0,
        GraphQLErrorPathParam.String "name"] := by
  refine ⟨fun s => rfl, fun n h1 h2 => ?_, ?_⟩
  · norm_num at h2
    simp [decodePathParam, h1, h2]
  · rfl

/-- C9 witness: the integer case applied at the concrete segment `7`. -/
theorem spec_C9_witness :
    decodePathParam (JsonValue.num 7) = some (GraphQLErrorPathParam.Number 7) :=
  spec_C9.2.1 7 (by decide) (by decide)

/-- C10: the convenience constructor `with_json` sets the summary message
to the literal default string. -/
theorem spec_C10 (E : List GraphQLErrorMessage) :
    (GraphQLError.with_json E).message = "Look at json field for more details" :=
  rfl
